import Mathlib

/-!
Shallow embedding of `ask.py` (a multi-provider terminal AI chat client) and
proofs about its adaptation layer: credential loading and saving, provider
handle construction, the per-provider `chat` request shaping, and the
in-memory conversation transcript.

The remote provider call is modelled by an oracle `respond : Request → Except
String String`; everything else is translated directly from the source.
-/

namespace AskPy

/-- One transcript turn, mirroring the role-tagged dicts
(`\x7b"role": r, "content": c\x7d`) that `ask.py` keeps in
`conversation_history` and sends to chat-style providers. -/
structure Turn where
  role : String
  content : String
deriving Repr, DecidableEq

/-- A Python `dict` of strings (the config mapping), as an association list
with first-match lookup. Python dicts have unique keys, and on unique keys
first-match lookup agrees with dict lookup. -/
abbrev Config := List (String × String)

/-- `d.get(k)` on the association list. -/
def lookup : Config → String → Option String
  | [], _ => none
  | (k2, v) :: rest, k => if k2 = k then some v else lookup rest k

/-- `d.setdefault(k, v)`: adds `(k, v)` at the end iff `k` is absent. -/
def setdefault (m : Config) (k v : String) : Config :=
  if (lookup m k).isSome then m else m ++ [(k, v)]

/-- Python truthiness of an `Optional[str]`: `None` and `""` are falsy. -/
def truthy : Option String → Bool
  | none => false
  | some s => !(s == "")

/-- Python `x or default` for `x : Optional[str]`. -/
def pyOr (m : Option String) (default : String) : String :=
  if truthy m then m.getD "" else default

/-- Python `str.lower()`; `Char.toLower` lowercases exactly the ASCII range,
which covers every provider selector the program compares against. -/
def lowerStr (s : String) : String := ⟨s.data.map Char.toLower⟩

/-- `AIClient.load_config` (ask.py lines 50-61): the persisted file if present
(else an empty mapping), then each of the four recognized provider keys is
defaulted from its environment variable, `os.getenv(_, '')` giving `""` when
unset. `env` maps an environment variable name to its value (`""` if unset),
and `persisted` is the parsed config file (`none` when the file is absent). -/
def load_config (persisted : Option Config) (env : String → String) : Config :=
  let cfg := persisted.getD []
  let cfg := setdefault cfg "gemini_api_key" (env "GEMINI_API_KEY")
  let cfg := setdefault cfg "openai_api_key" (env "OPENAI_API_KEY")
  let cfg := setdefault cfg "anthropic_api_key" (env "ANTHROPIC_API_KEY")
  setdefault cfg "groq_api_key" (env "GROQ_API_KEY")

/-- `AIClient.save_config` (lines 63-67): dumps the whole mapping, fully
overwriting the file, so the persisted state afterwards is exactly the
mapping (wrapped in `some`: the file now exists). -/
def save_config (cfg : Config) : Option Config := some cfg

/-- Which provider SDKs are importable (`GEMINI_AVAILABLE` etc., lines 14-36). -/
structure Avail where
  gemini : Bool
  openai : Bool
  anthropic : Bool
  groq : Bool
deriving Repr, DecidableEq

/-- The exceptions `initialize_client` raises: `ImportError` for a missing
SDK, `ValueError` for a missing credential or an unknown selector. The spec
groups both under `ConfigurationError`. -/
inductive PyError where
  | importError (msg : String)
  | valueError (msg : String)
deriving Repr, DecidableEq

/-- `AIClient.initialize_client` (lines 69-109), acting on the already
lowercased `self.provider`, the constructor argument `self.model`, and
`self.config`. On success it yields the resolved credential and the resolved
effective model (`self.model or default`); on failure it raises. -/
def initialize_client (avail : Avail) (provider : String) (model : Option String)
    (config : Config) : Except PyError (String × String) :=
  if provider = "gemini" then
    if !avail.gemini then
      .error (.importError "google-generativeai not installed. Run: pip install google-generativeai")
    else if !truthy (lookup config "gemini_api_key") then
      .error (.valueError "Gemini API key not found. Set GEMINI_API_KEY or run --configure")
    else
      .ok ((lookup config "gemini_api_key").getD "", pyOr model "gemini-pro")
  else if provider = "openai" then
    if !avail.openai then
      .error (.importError "openai not installed. Run: pip install openai")
    else if !truthy (lookup config "openai_api_key") then
      .error (.valueError "OpenAI API key not found. Set OPENAI_API_KEY or run --configure")
    else
      .ok ((lookup config "openai_api_key").getD "", pyOr model "gpt-4-turbo-preview")
  else if provider = "anthropic" then
    if !avail.anthropic then
      .error (.importError "anthropic not installed. Run: pip install anthropic")
    else if !truthy (lookup config "anthropic_api_key") then
      .error (.valueError "Anthropic API key not found. Set ANTHROPIC_API_KEY or run --configure")
    else
      .ok ((lookup config "anthropic_api_key").getD "", pyOr model "claude-3-5-sonnet-20241022")
  else if provider = "groq" then
    if !avail.groq then
      .error (.importError "groq not installed. Run: pip install groq")
    else if !truthy (lookup config "groq_api_key") then
      .error (.valueError "Groq API key not found. Set GROQ_API_KEY or run --configure")
    else
      .ok ((lookup config "groq_api_key").getD "", pyOr model "llama-3.3-70b-versatile")
  else
    .error (.valueError ("Unknown provider: " ++ provider))

/-- The state an `AIClient` carries after construction: lowercased provider,
resolved model, resolved credential (the data the opaque SDK handle is bound
to), the loaded config, and the (initially empty) transcript. -/
structure Client where
  provider : String
  model : String
  api_key : String
  config : Config
  conversation_history : List Turn
deriving Repr, DecidableEq

/-- `AIClient.__init__` (lines 42-48): lowercase the selector, load the
config, then `initialize_client`; the transcript starts empty. -/
def AIClient_init (avail : Avail) (provider : String) (model : Option String)
    (persisted : Option Config) (env : String → String) : Except PyError Client :=
  let prov := lowerStr provider
  let config := load_config persisted env
  match initialize_client avail prov model config with
  | .error e => .error e
  | .ok (key, m) =>
      .ok { provider := prov, model := m, api_key := key, config := config,
            conversation_history := [] }

/-- The request shapes `chat` hands to the provider SDKs:
`client.generate_content(message)` for gemini,
`client.chat.completions.create(model, messages)` for openai and groq, and
`client.messages.create(model, max_tokens, messages, system?)` for anthropic. -/
inductive Request where
  | generateContent (message : String)
  | chatCompletions (model : String) (messages : List Turn)
  | messagesCreate (model : String) (max_tokens : Nat) (messages : List Turn)
      (system : Option String)
deriving Repr, DecidableEq

/-- `AIClient.chat` (lines 111-172). `respond` is the remote call: `.ok r`
when it returns reply text `r`, `.error e` when it raises. The result pairs
the returned value (or the propagated exception) with the state of
`self.conversation_history` after the call — including the mutation the
anthropic branch performs before the remote call, which survives a raise.
The final fallthrough (no branch matches) returns `None` in Python; it is
unreachable from a constructed client, whose provider `initialize_client`
has validated. -/
def chat (provider model : String) (history : List Turn) (message : String)
    (system_prompt : Option String) (respond : Request → Except String String) :
    Except String String × List Turn :=
  if provider = "gemini" then
    let message :=
      if truthy system_prompt ∧ history = [] then
        system_prompt.getD "" ++ "\n\n" ++ message
      else message
    (respond (.generateContent message), history)
  else if provider = "openai" then
    let messages :=
      (if truthy system_prompt then [Turn.mk "system" (system_prompt.getD "")] else [])
        ++ history ++ [Turn.mk "user" message]
    match respond (.chatCompletions model messages) with
    | .ok reply => (.ok reply, history ++ [Turn.mk "user" message, Turn.mk "assistant" reply])
    | .error e => (.error e, history)
  else if provider = "anthropic" then
    let history1 := history ++ [Turn.mk "user" message]
    let sys := if truthy system_prompt then system_prompt else none
    match respond (.messagesCreate model 4096 history1 sys) with
    | .ok reply => (.ok reply, history1 ++ [Turn.mk "assistant" reply])
    | .error e => (.error e, history1)
  else if provider = "groq" then
    let messages :=
      (if truthy system_prompt then [Turn.mk "system" (system_prompt.getD "")] else [])
        ++ history ++ [Turn.mk "user" message]
    match respond (.chatCompletions model messages) with
    | .ok reply => (.ok reply, history ++ [Turn.mk "user" message, Turn.mk "assistant" reply])
    | .error e => (.error e, history)
  else
    (.error "unreachable: unknown provider", history)

/-- `AIClient.clear_history` (lines 174-176). -/
def clear_history (_ : List Turn) : List Turn := []

/-- A sequence of successful sends on one client: each exchange is
`(message, system prompt, the reply the provider returns)`, threaded through
the transcript that `chat` leaves behind. -/
def runChats (provider model : String) (history : List Turn) :
    List (String × Option String × String) → List Turn
  | [] => history
  | (msg, sp, reply) :: rest =>
      runChats provider model
        (chat provider model history msg sp (fun _ => .ok reply)).2 rest

/-- The transcript a list of exchanges produces on a chat-style provider:
one user turn then one assistant turn per exchange, chronologically. -/
def turnsOf : List (String × Option String × String) → List Turn
  | [] => []
  | (msg, _, reply) :: rest =>
      Turn.mk "user" msg :: Turn.mk "assistant" reply :: turnsOf rest

/-- The config key `initialize_client` resolves for a selector. -/
def keyName (s : String) : String :=
  if s = "gemini" then "gemini_api_key"
  else if s = "openai" then "openai_api_key"
  else if s = "anthropic" then "anthropic_api_key"
  else "groq_api_key"

/-- The environment variable `load_config` reads for a recognized config key. -/
def envVarOf (k : String) : String :=
  if k = "gemini_api_key" then "GEMINI_API_KEY"
  else if k = "openai_api_key" then "OPENAI_API_KEY"
  else if k = "anthropic_api_key" then "ANTHROPIC_API_KEY"
  else "GROQ_API_KEY"

/-! Helper lemmas about the association-list mapping. -/

theorem lookup_append_some {m : Config} {k v : String} (l : Config)
    (h : lookup m k = some v) : lookup (m ++ l) k = some v := by
  induction m with
  | nil => simp [lookup] at h
  | cons p rest ih =>
      obtain ⟨k2, v2⟩ := p
      by_cases hk : k2 = k
      · simpa [lookup, hk] using h
      · rw [List.cons_append, lookup, if_neg hk] at *
        exact ih h

theorem lookup_append_none {m : Config} {k : String} (l : Config)
    (h : lookup m k = none) : lookup (m ++ l) k = lookup l k := by
  induction m with
  | nil => simp [lookup]
  | cons p rest ih =>
      obtain ⟨k2, v2⟩ := p
      by_cases hk : k2 = k
      · simp [lookup, hk] at h
      · rw [lookup, if_neg hk] at h
        rw [List.cons_append, lookup, if_neg hk]
        exact ih h

theorem lookup_setdefault_some {m : Config} {k k2 v v2 : String}
    (h : lookup m k2 = some v) : lookup (setdefault m k v2) k2 = some v := by
  unfold setdefault
  split
  · exact h
  · exact lookup_append_some _ h

theorem lookup_setdefault_self {m : Config} {k v : String}
    (h : lookup m k = none) : lookup (setdefault m k v) k = some v := by
  unfold setdefault
  rw [if_neg (by simp [h]), lookup_append_none _ h, lookup, if_pos rfl]

theorem lookup_setdefault_none {m : Config} {k k2 v : String}
    (h : lookup m k2 = none) (hne : k2 ≠ k) :
    lookup (setdefault m k v) k2 = none := by
  unfold setdefault
  split
  · exact h
  · rw [lookup_append_none _ h, lookup, if_neg (Ne.symm hne)]
    rfl

/-! Helper lemmas about ASCII lowercasing. -/

theorem char_toNat_ofNat_valid (n : Nat) (h : n.isValidChar) :
    (Char.ofNat n).toNat = n := by
  rw [Char.ofNat, dif_pos h]
  rfl

theorem char_toLower_eq (c : Char) :
    c.toLower = if c.toNat ≥ 65 ∧ c.toNat ≤ 90 then Char.ofNat (c.toNat + 32) else c := rfl

theorem char_toLower_idem (c : Char) : c.toLower.toLower = c.toLower := by
  by_cases h : c.toNat ≥ 65 ∧ c.toNat ≤ 90
  · rw [char_toLower_eq c, if_pos h, char_toLower_eq,
      char_toNat_ofNat_valid (c.toNat + 32) (Or.inl (by omega)), if_neg (by omega)]
  · rw [char_toLower_eq c, if_neg h, char_toLower_eq, if_neg h]

theorem lowerStr_idem (s : String) : lowerStr (lowerStr s) = lowerStr s := by
  have key : ∀ l : List Char, (l.map Char.toLower).map Char.toLower = l.map Char.toLower := by
    intro l
    induction l with
    | nil => rfl
    | cons c t ih => simp only [List.map_cons, char_toLower_idem, ih]
  unfold lowerStr
  exact congrArg String.mk (key s.data)

/-! Helper lemmas about `chat` and `runChats`. -/

theorem chat_openai_ok_snd (model : String) (h : List Turn) (msg r : String)
    (sp : Option String) :
    (chat "openai" model h msg sp (fun _ => .ok r)).2
      = h ++ [Turn.mk "user" msg, Turn.mk "assistant" r] := rfl

theorem chat_groq_ok_snd (model : String) (h : List Turn) (msg r : String)
    (sp : Option String) :
    (chat "groq" model h msg sp (fun _ => .ok r)).2
      = h ++ [Turn.mk "user" msg, Turn.mk "assistant" r] := rfl

theorem chat_anthropic_ok_snd (model : String) (h : List Turn) (msg r : String)
    (sp : Option String) :
    (chat "anthropic" model h msg sp (fun _ => .ok r)).2
      = h ++ [Turn.mk "user" msg, Turn.mk "assistant" r] := by
  show (h ++ [Turn.mk "user" msg]) ++ [Turn.mk "assistant" r]
      = h ++ [Turn.mk "user" msg, Turn.mk "assistant" r]
  simp

theorem runChats_eq_append (p model : String)
    (hp : p = "openai" ∨ p = "groq" ∨ p = "anthropic") :
    ∀ (exs : List (String × Option String × String)) (h : List Turn),
      runChats p model h exs = h ++ turnsOf exs := by
  intro exs
  induction exs with
  | nil => intro h; simp [runChats, turnsOf]
  | cons e rest ih =>
      intro h
      obtain ⟨msg, sp, r⟩ := e
      rcases hp with rfl | rfl | rfl
      · rw [runChats, chat_openai_ok_snd, ih, turnsOf]
        simp
      · rw [runChats, chat_groq_ok_snd, ih, turnsOf]
        simp
      · rw [runChats, chat_anthropic_ok_snd, ih, turnsOf]
        simp

theorem turnsOf_length (exs : List (String × Option String × String)) :
    (turnsOf exs).length = 2 * exs.length := by
  induction exs with
  | nil => rfl
  | cons e rest ih =>
      obtain ⟨msg, sp, r⟩ := e
      simp only [turnsOf, List.length_cons, ih]
      omega

/-! Helper lemmas about client construction. -/

theorem AIClient_init_eq (avail : Avail) (s : String) (model : Option String)
    (persisted : Option Config) (env : String → String) :
    AIClient_init avail s model persisted env =
      match initialize_client avail (lowerStr s) model (load_config persisted env) with
      | .error e => .error e
      | .ok (key, m) =>
          .ok { provider := lowerStr s, model := m, api_key := key,
                config := load_config persisted env, conversation_history := [] } := rfl

theorem lowerStr_gemini : lowerStr "gemini" = "gemini" := rfl

theorem lowerStr_openai : lowerStr "openai" = "openai" := rfl

theorem lowerStr_anthropic : lowerStr "anthropic" = "anthropic" := rfl

theorem lowerStr_groq : lowerStr "groq" = "groq" := rfl

theorem pyOr_some_ne (m d : String) (hm : m ≠ "") : pyOr (some m) d = m := by
  simp [pyOr, truthy, hm]

theorem initialize_client_gemini (avail : Avail) (hg : avail.gemini = true)
    (model : Option String) (config : Config) (key : String)
    (hl : lookup config "gemini_api_key" = some key) (hkey : key ≠ "") :
    initialize_client avail "gemini" model config = .ok (key, pyOr model "gemini-pro") := by
  have ht : truthy (some key) = true := by simp [truthy, hkey]
  simp [initialize_client, hg, hl, ht]

theorem initialize_client_openai (avail : Avail) (ho : avail.openai = true)
    (model : Option String) (config : Config) (key : String)
    (hl : lookup config "openai_api_key" = some key) (hkey : key ≠ "") :
    initialize_client avail "openai" model config
      = .ok (key, pyOr model "gpt-4-turbo-preview") := by
  have ht : truthy (some key) = true := by simp [truthy, hkey]
  simp [initialize_client, ho, hl, ht]

theorem initialize_client_anthropic (avail : Avail) (ha : avail.anthropic = true)
    (model : Option String) (config : Config) (key : String)
    (hl : lookup config "anthropic_api_key" = some key) (hkey : key ≠ "") :
    initialize_client avail "anthropic" model config
      = .ok (key, pyOr model "claude-3-5-sonnet-20241022") := by
  have ht : truthy (some key) = true := by simp [truthy, hkey]
  simp [initialize_client, ha, hl, ht]

theorem initialize_client_groq (avail : Avail) (hq : avail.groq = true)
    (model : Option String) (config : Config) (key : String)
    (hl : lookup config "groq_api_key" = some key) (hkey : key ≠ "") :
    initialize_client avail "groq" model config
      = .ok (key, pyOr model "llama-3.3-70b-versatile") := by
  have ht : truthy (some key) = true := by simp [truthy, hkey]
  simp [initialize_client, hq, hl, ht]

/-- Claim C1. The first gemini send in a fresh session with system prompt "S"
composes the input `"S" ++ "\n\n" ++ message` and leaves the transcript
empty; because the gemini branch never appends to the transcript, the second
send in the same session finds the transcript empty again and sends the
system prompt re-prepended to the second message as well — against the
claim (and against the source comment, which says the prompt goes on the
first message). -/
theorem C1_gemini_prepends_on_second_send :
    (chat "gemini" "gemini-pro" [] "m1" (some "S") (fun _ => .ok "r1")).2 = [] ∧
    ∀ respond : Request → Except String String,
      chat "gemini" "gemini-pro"
          (chat "gemini" "gemini-pro" [] "m1" (some "S") (fun _ => .ok "r1")).2
          "m2" (some "S") respond
        = (respond (.generateContent ("S" ++ "\n\n" ++ "m2")), []) :=
  ⟨rfl, fun _ => rfl⟩

/-- Claim C2. For the chat-style providers (openai, groq, anthropic),
`N` successful sends from an empty transcript leave exactly the `2N` turns
`user msg₁, assistant reply₁, …, user msgN, assistant replyN`, in
chronological order — `turnsOf` interleaves one user and one assistant turn
per exchange. -/
theorem C2_transcript_after_sends (p model : String)
    (exs : List (String × Option String × String))
    (hp : p = "openai" ∨ p = "groq" ∨ p = "anthropic") :
    runChats p model [] exs = turnsOf exs ∧
    (runChats p model [] exs).length = 2 * exs.length := by
  have h := runChats_eq_append p model hp exs []
  rw [List.nil_append] at h
  exact ⟨h, by rw [h, turnsOf_length]⟩

/-- Witness for C2: two openai sends produce the four expected turns. -/
theorem C2_witness :
    runChats "openai" "gpt-4-turbo-preview" [] [("q1", none, "a1"), ("q2", some "S", "a2")]
        = turnsOf [("q1", none, "a1"), ("q2", some "S", "a2")] ∧
    (runChats "openai" "gpt-4-turbo-preview" []
        [("q1", none, "a1"), ("q2", some "S", "a2")]).length
      = 2 * ([("q1", none, "a1"), ("q2", some "S", "a2")]
          : List (String × Option String × String)).length :=
  C2_transcript_after_sends "openai" "gpt-4-turbo-preview"
    [("q1", none, "a1"), ("q2", some "S", "a2")] (Or.inl rfl)

/-- Counterexample to claim C3 as stated: an anthropic send whose provider
call raises does alter the transcript — the user turn was appended before
the call and survives the failure. -/
theorem C3_counterexample :
    (chat "anthropic" "claude-3-5-sonnet-20241022" [] "hi" none
        (fun _ => .error "boom")).2 ≠ [] := by
  decide

/-- Claim C3 amended: a failed send leaves the transcript unchanged for
gemini, openai and groq; for anthropic it leaves the transcript with the
new user turn appended (and nothing else). -/
theorem C3_failed_send_transcript (p model msg e : String) (sp : Option String)
    (history : List Turn) (hp : p = "gemini" ∨ p = "openai" ∨ p = "groq") :
    (chat p model history msg sp (fun _ => .error e)).2 = history ∧
    (chat "anthropic" model history msg sp (fun _ => .error e)).2
      = history ++ [Turn.mk "user" msg] := by
  refine ⟨?_, rfl⟩
  rcases hp with rfl | rfl | rfl <;> rfl

/-- Witness for C3: a failing openai send keeps the two accumulated turns;
the anthropic part of the statement is instantiated alongside. -/
theorem C3_witness :
    (chat "openai" "gpt-4-turbo-preview" [Turn.mk "user" "q0", Turn.mk "assistant" "a0"]
        "q" none (fun _ => .error "boom")).2
      = [Turn.mk "user" "q0", Turn.mk "assistant" "a0"] ∧
    (chat "anthropic" "gpt-4-turbo-preview" [Turn.mk "user" "q0", Turn.mk "assistant" "a0"]
        "q" none (fun _ => .error "boom")).2
      = [Turn.mk "user" "q0", Turn.mk "assistant" "a0"] ++ [Turn.mk "user" "q"] :=
  C3_failed_send_transcript "openai" "gpt-4-turbo-preview" "q" "boom" none
    [Turn.mk "user" "q0", Turn.mk "assistant" "a0"] (Or.inr (Or.inl rfl))

/-- Counterexample to claim C6 as stated: for gemini, `clear` followed by a
successful send leaves 0 turns, not 2 — the gemini branch never appends. -/
theorem C6_counterexample :
    ((chat "gemini" "gemini-pro"
        (clear_history [Turn.mk "user" "old", Turn.mk "assistant" "r0"])
        "hi" (some "S") (fun _ => .ok "reply")).2).length ≠ 2 := by
  decide

/-- Claim C6 amended: for the chat-style providers (openai, groq,
anthropic), `clear` followed by one successful send yields exactly the two
new turns, whatever the transcript held before; for gemini the transcript is
empty afterwards. -/
theorem C6_clear_then_send (p model msg reply : String) (sp : Option String)
    (history : List Turn) (hp : p = "openai" ∨ p = "groq" ∨ p = "anthropic") :
    (chat p model (clear_history history) msg sp (fun _ => .ok reply)).2
      = [Turn.mk "user" msg, Turn.mk "assistant" reply] ∧
    (chat "gemini" model (clear_history history) msg sp (fun _ => .ok reply)).2 = [] := by
  refine ⟨?_, rfl⟩
  rcases hp with rfl | rfl | rfl <;> rfl

/-- Witness for C6: clear a 2-turn transcript, send once on groq, get
exactly the new exchange. -/
theorem C6_witness :
    (chat "groq" "llama-3.3-70b-versatile"
        (clear_history [Turn.mk "user" "old", Turn.mk "assistant" "r0"])
        "q" none (fun _ => .ok "a")).2
      = [Turn.mk "user" "q", Turn.mk "assistant" "a"] ∧
    (chat "gemini" "llama-3.3-70b-versatile"
        (clear_history [Turn.mk "user" "old", Turn.mk "assistant" "r0"])
        "q" none (fun _ => .ok "a")).2 = [] :=
  C6_clear_then_send "groq" "llama-3.3-70b-versatile" "q" "a" none
    [Turn.mk "user" "old", Turn.mk "assistant" "r0"] (Or.inr (Or.inl rfl))

/-- Claim C7. A gemini send never changes the transcript, whatever the
message, system prompt, prior transcript, or provider outcome. -/
theorem C7_gemini_transcript_unchanged (model msg : String) (sp : Option String)
    (history : List Turn) (respond : Request → Except String String) :
    (chat "gemini" model history msg sp respond).2 = history := rfl

/-- Claim C4. With all four SDKs installed, constructing a client for any of
the four selectors with no config file and every environment variable unset
(so the credential resolves to the empty string) raises a `ValueError` — the
spec's `ConfigurationError` — and yields no handle; and for any selector
whose lowercased form is outside the fixed enumeration, construction raises
a `ValueError` whatever the credential state. -/
theorem C4_create_failures :
    (∀ (model : Option String) (s : String),
      s ∈ (["gemini", "openai", "anthropic", "groq"] : List String) →
      ∃ msg, AIClient_init ⟨true, true, true, true⟩ s model none (fun _ => "")
        = .error (.valueError msg)) ∧
    (∀ (avail : Avail) (model : Option String) (persisted : Option Config)
        (env : String → String) (s : String),
      lowerStr s ∉ (["gemini", "openai", "anthropic", "groq"] : List String) →
      ∃ msg, AIClient_init avail s model persisted env = .error (.valueError msg)) := by
  constructor
  · intro model s hs
    simp only [List.mem_cons, List.not_mem_nil, or_false] at hs
    rcases hs with rfl | rfl | rfl | rfl
    · exact ⟨_, rfl⟩
    · exact ⟨_, rfl⟩
    · exact ⟨_, rfl⟩
    · exact ⟨_, rfl⟩
  · intro avail model persisted env s hs
    simp only [List.mem_cons, List.not_mem_nil, or_false, not_or] at hs
    obtain ⟨h1, h2, h3, h4⟩ := hs
    refine ⟨"Unknown provider: " ++ lowerStr s, ?_⟩
    have hic : initialize_client avail (lowerStr s) model (load_config persisted env)
        = .error (.valueError ("Unknown provider: " ++ lowerStr s)) := by
      unfold initialize_client
      rw [if_neg h1, if_neg h2, if_neg h3, if_neg h4]
    rw [AIClient_init_eq, hic]

/-- Witness for C4: groq with empty credentials fails, and so does the
unknown selector "mistral", both with a `ValueError`. -/
theorem C4_witness :
    (∃ msg, AIClient_init ⟨true, true, true, true⟩ "groq" none none (fun _ => "")
        = .error (.valueError msg)) ∧
    (∃ msg, AIClient_init ⟨true, true, true, true⟩ "mistral" none none (fun _ => "")
        = .error (.valueError msg)) :=
  ⟨C4_create_failures.1 none "groq" (by simp),
   C4_create_failures.2 ⟨true, true, true, true⟩ none none (fun _ => "") "mistral"
     (by decide)⟩

/-- Claim C5. For each selector with a valid credential: a nonempty model
override becomes the handle's effective model; with no override the
effective model is the hardcoded per-provider default, in particular
`llama-3.3-70b-versatile` for groq and `claude-3-5-sonnet-20241022` for
anthropic. -/
theorem C5_model_resolution (m key : String) (hm : m ≠ "") (hkey : key ≠ "") :
    ((AIClient_init ⟨true, true, true, true⟩ "gemini" (some m)
        (some [("gemini_api_key", key)]) (fun _ => "")).map Client.model = .ok m) ∧
    ((AIClient_init ⟨true, true, true, true⟩ "openai" (some m)
        (some [("openai_api_key", key)]) (fun _ => "")).map Client.model = .ok m) ∧
    ((AIClient_init ⟨true, true, true, true⟩ "anthropic" (some m)
        (some [("anthropic_api_key", key)]) (fun _ => "")).map Client.model = .ok m) ∧
    ((AIClient_init ⟨true, true, true, true⟩ "groq" (some m)
        (some [("groq_api_key", key)]) (fun _ => "")).map Client.model = .ok m) ∧
    ((AIClient_init ⟨true, true, true, true⟩ "gemini" none
        (some [("gemini_api_key", key)]) (fun _ => "")).map Client.model
      = .ok "gemini-pro") ∧
    ((AIClient_init ⟨true, true, true, true⟩ "openai" none
        (some [("openai_api_key", key)]) (fun _ => "")).map Client.model
      = .ok "gpt-4-turbo-preview") ∧
    ((AIClient_init ⟨true, true, true, true⟩ "anthropic" none
        (some [("anthropic_api_key", key)]) (fun _ => "")).map Client.model
      = .ok "claude-3-5-sonnet-20241022") ∧
    ((AIClient_init ⟨true, true, true, true⟩ "groq" none
        (some [("groq_api_key", key)]) (fun _ => "")).map Client.model
      = .ok "llama-3.3-70b-versatile") := by
  refine ⟨?_, ?_, ?_, ?_, ?_, ?_, ?_, ?_⟩
  · rw [AIClient_init_eq, lowerStr_gemini,
      initialize_client_gemini ⟨true, true, true, true⟩ rfl (some m)
        (load_config (some [("gemini_api_key", key)]) (fun _ => "")) key rfl hkey,
      pyOr_some_ne m _ hm]
    rfl
  · rw [AIClient_init_eq, lowerStr_openai,
      initialize_client_openai ⟨true, true, true, true⟩ rfl (some m)
        (load_config (some [("openai_api_key", key)]) (fun _ => "")) key rfl hkey,
      pyOr_some_ne m _ hm]
    rfl
  · rw [AIClient_init_eq, lowerStr_anthropic,
      initialize_client_anthropic ⟨true, true, true, true⟩ rfl (some m)
        (load_config (some [("anthropic_api_key", key)]) (fun _ => "")) key rfl hkey,
      pyOr_some_ne m _ hm]
    rfl
  · rw [AIClient_init_eq, lowerStr_groq,
      initialize_client_groq ⟨true, true, true, true⟩ rfl (some m)
        (load_config (some [("groq_api_key", key)]) (fun _ => "")) key rfl hkey,
      pyOr_some_ne m _ hm]
    rfl
  · rw [AIClient_init_eq, lowerStr_gemini,
      initialize_client_gemini ⟨true, true, true, true⟩ rfl none
        (load_config (some [("gemini_api_key", key)]) (fun _ => "")) key rfl hkey]
    rfl
  · rw [AIClient_init_eq, lowerStr_openai,
      initialize_client_openai ⟨true, true, true, true⟩ rfl none
        (load_config (some [("openai_api_key", key)]) (fun _ => "")) key rfl hkey]
    rfl
  · rw [AIClient_init_eq, lowerStr_anthropic,
      initialize_client_anthropic ⟨true, true, true, true⟩ rfl none
        (load_config (some [("anthropic_api_key", key)]) (fun _ => "")) key rfl hkey]
    rfl
  · rw [AIClient_init_eq, lowerStr_groq,
      initialize_client_groq ⟨true, true, true, true⟩ rfl none
        (load_config (some [("groq_api_key", key)]) (fun _ => "")) key rfl hkey]
    rfl

/-- Witness for C5: override "my-model" wins everywhere, and the defaults
come back without an override. -/
theorem C5_witness :
    ((AIClient_init ⟨true, true, true, true⟩ "gemini" (some "my-model")
        (some [("gemini_api_key", "k")]) (fun _ => "")).map Client.model = .ok "my-model") ∧
    ((AIClient_init ⟨true, true, true, true⟩ "openai" (some "my-model")
        (some [("openai_api_key", "k")]) (fun _ => "")).map Client.model = .ok "my-model") ∧
    ((AIClient_init ⟨true, true, true, true⟩ "anthropic" (some "my-model")
        (some [("anthropic_api_key", "k")]) (fun _ => "")).map Client.model = .ok "my-model") ∧
    ((AIClient_init ⟨true, true, true, true⟩ "groq" (some "my-model")
        (some [("groq_api_key", "k")]) (fun _ => "")).map Client.model = .ok "my-model") ∧
    ((AIClient_init ⟨true, true, true, true⟩ "gemini" none
        (some [("gemini_api_key", "k")]) (fun _ => "")).map Client.model
      = .ok "gemini-pro") ∧
    ((AIClient_init ⟨true, true, true, true⟩ "openai" none
        (some [("openai_api_key", "k")]) (fun _ => "")).map Client.model
      = .ok "gpt-4-turbo-preview") ∧
    ((AIClient_init ⟨true, true, true, true⟩ "anthropic" none
        (some [("anthropic_api_key", "k")]) (fun _ => "")).map Client.model
      = .ok "claude-3-5-sonnet-20241022") ∧
    ((AIClient_init ⟨true, true, true, true⟩ "groq" none
        (some [("groq_api_key", "k")]) (fun _ => "")).map Client.model
      = .ok "llama-3.3-70b-versatile") :=
  C5_model_resolution "my-model" "k" (by decide) (by decide)

/-- Claim C8. `save` then `load` preserves the value of every key present in
the saved mapping, and fills every recognized provider key absent from it
from its environment variable. -/
theorem C8_save_load_round_trip (m : Config) (env : String → String) :
    (∀ k v, lookup m k = some v →
      lookup (load_config (save_config m) env) k = some v) ∧
    (∀ k, k ∈ (["gemini_api_key", "openai_api_key", "anthropic_api_key",
        "groq_api_key"] : List String) →
      lookup m k = none →
      lookup (load_config (save_config m) env) k = some (env (envVarOf k))) := by
  constructor
  · intro k v h
    exact lookup_setdefault_some (lookup_setdefault_some
      (lookup_setdefault_some (lookup_setdefault_some h)))
  · intro k hk hnone
    simp only [List.mem_cons, List.not_mem_nil, or_false] at hk
    rcases hk with rfl | rfl | rfl | rfl
    · exact lookup_setdefault_some (lookup_setdefault_some
        (lookup_setdefault_some (lookup_setdefault_self hnone)))
    · exact lookup_setdefault_some (lookup_setdefault_some
        (lookup_setdefault_self (lookup_setdefault_none hnone (by decide))))
    · exact lookup_setdefault_some (lookup_setdefault_self
        (lookup_setdefault_none (lookup_setdefault_none hnone (by decide)) (by decide)))
    · exact lookup_setdefault_self (lookup_setdefault_none (lookup_setdefault_none
        (lookup_setdefault_none hnone (by decide)) (by decide)) (by decide))

/-- Witness for C8: a mapping holding only an openai key keeps it across
save/load, and the absent groq key comes back from the environment. -/
theorem C8_witness :
    lookup (load_config (save_config [("openai_api_key", "sk")]) (fun v => "E-" ++ v))
        "openai_api_key" = some "sk" ∧
    lookup (load_config (save_config [("openai_api_key", "sk")]) (fun v => "E-" ++ v))
        "groq_api_key" = some ((fun v => "E-" ++ v) (envVarOf "groq_api_key")) :=
  ⟨(C8_save_load_round_trip [("openai_api_key", "sk")] (fun v => "E-" ++ v)).1
      "openai_api_key" "sk" rfl,
   (C8_save_load_round_trip [("openai_api_key", "sk")] (fun v => "E-" ++ v)).2
      "groq_api_key" (by simp) rfl⟩

/-- Claim C9. An empty-string model override behaves exactly like no
override: `self.model or default` resolves the empty string to the
per-provider default, for every selector and credential state. -/
theorem C9_empty_override_is_no_override (avail : Avail) (s : String)
    (persisted : Option Config) (env : String → String) :
    AIClient_init avail s (some "") persisted env
      = AIClient_init avail s none persisted env := rfl

/-- Claim C10. The selector is lowercased before any dispatch: construction
with any selector string behaves identically to construction with its
lowercase form, for every model and credential state. -/
theorem C10_selector_lowercased (avail : Avail) (s : String) (model : Option String)
    (persisted : Option Config) (env : String → String) :
    AIClient_init avail s model persisted env
      = AIClient_init avail (lowerStr s) model persisted env := by
  rw [AIClient_init_eq avail s, AIClient_init_eq avail (lowerStr s), lowerStr_idem]

end AskPy
